import Mathlib

/-!
Shallow embedding of `src/energylevel.py` (energy-report pipeline).

Pure computations are translated directly; the two fallible points of the
report pipeline (the narrative-generator call, which indexes `dates[0]` /
`dates[-1]`, and the weekday parsing via `strptime`) are modelled with
`Option`, where `none` stands for a raised-and-propagated exception.
The external LLM call is an oracle parameter `llm : String → String`
(the single request/response round trip of `generate_energy_balance_analysis`).
-/

set_option maxHeartbeats 1000000

/-- One merged per-day record, as assembled by the `__main__` loop of
`energylevel.py` (the `new_entry` dict, lines 353-366). -/
structure DailyRecord where
  date : String
  charged : Int
  drained : Int
  sleep_seconds : Int
  deep_sleep_seconds : Int
  light_sleep_seconds : Int
  rem_sleep_seconds : Int
  awake_sleep_seconds : Int
  sleep_feedback : String
  sleep_insight : String
  avg_stress_level : Int
  max_stress_level : Int
deriving DecidableEq

/-- The `feedback_mapping` dict literal of `get_sleep_feedback_explanation`
(lines 29-38), as an association list in source order. -/
def feedback_mapping : List (String × String) :=
  [ ("NEGATIVE_NOT_RESTORATIVE", "Sleep is observed to be non-restorative, likely indicating poor sleep quality. This could be due to various factors such as stress, late bedtime, or other disturbances."),
    ("NEGATIVE_LONG_BUT_NOT_RESTORATIVE", "Although sleep duration is extended, it is still not restorative. This may be influenced by factors like very strenuous exercise, impacting the overall restfulness of the sleep."),
    ("NEGATIVE_SHORT_AND_POOR_QUALITY", "Sleep duration is short, and the quality is poor. This could be a result of insufficient sleep time or other factors affecting the overall sleep experience."),
    ("NEGATIVE_SHORT_AND_NONRECOVERING", "Sleep is short, and there\x27s inadequate recovery, likely influenced by factors such as late bedtime. The sleep lacks the necessary duration for proper restoration."),
    ("POSITIVE_OPTIMAL_STRUCTURE", "Sleep is structured optimally, suggesting a positive sleep pattern without any notable issues or disturbances. This is indicative of good sleep quality."),
    ("POSITIVE_LONG_AND_CALM", "Sleep duration is long and characterized by a calm state. This positive sleep pattern is observed, potentially contributing to better overall well-being."),
    ("POSITIVE_LONG_AND_CONTINUOUS", "Sleep duration is both long and continuous, implying a positive and uninterrupted sleep experience. This is generally associated with better restfulness."),
    ("POSITIVE_DEEP", "Deep sleep is observed, indicating a positive aspect of the sleep cycle. However, it might be impacted by external factors, such as a stressful day, affecting the overall sleep experience.") ]

/-- `get_sleep_feedback_explanation` (lines 28-39): dict `.get(code, code)`,
i.e. lookup with identity fallback. -/
def get_sleep_feedback_explanation (sleep_feedback : String) : String :=
  match feedback_mapping.lookup sleep_feedback with
  | some v => v
  | none => sleep_feedback

/-- The `insight_mapping` dict literal of `get_sleep_insight_explanation`
(lines 42-49), as an association list in source order. -/
def insight_mapping : List (String × String) :=
  [ ("NONE", "No specific sleep insight is identified. This could mean that there are no notable external factors influencing the sleep pattern during the analyzed period."),
    ("NEGATIVE_LATE_BED_TIME", "Sleep is negatively affected by a late bedtime. Going to bed late may disrupt the natural sleep-wake cycle, potentially leading to difficulties in falling asleep or achieving restorative sleep."),
    ("NEGATIVE_VERY_STRENUOUS_EXERCISE", "Intense or very strenuous exercise close to bedtime negatively impacts sleep quality. The body needs time to wind down, and vigorous exercise shortly before sleep may interfere with this process."),
    ("NEGATIVE_STRESSFUL_DAY", "Sleep is negatively affected by a stressful day. High stress levels can interfere with the ability to relax and unwind, potentially impacting the overall quality of sleep."),
    ("POSITIVE_EXERCISE", "The positive influence of exercise on sleep is observed. Regular physical activity is known to contribute to better sleep quality and overall well-being."),
    ("POSITIVE_LATE_BED_TIME", "Going to bed late is observed as a positive factor in this context. It\x27s important to note that individual sleep preferences and rhythms can vary, and for some, a later bedtime may align with better sleep quality.") ]

/-- `get_sleep_insight_explanation` (lines 41-50). -/
def get_sleep_insight_explanation (sleep_insight : String) : String :=
  match insight_mapping.lookup sleep_insight with
  | some v => v
  | none => sleep_insight

def feedback_codes : List String := feedback_mapping.map Prod.fst

def insight_codes : List String := insight_mapping.map Prod.fst

/-! ## Date and weekday arithmetic

`datetime.datetime.strptime(s, "%Y-%m-%d").weekday()` (line 227) is embedded
as: parse the dash-separated decimal fields, then compute the weekday from the
proleptic-Gregorian ordinal exactly as CPython's `date.toordinal` does
(Monday = 0, since ordinal 1 = 0001-01-01 is a Monday). A string that does not
parse corresponds to `strptime` raising `ValueError`. -/

def is_leap_year (y : Nat) : Bool :=
  (y % 4 == 0 && y % 100 != 0) || (y % 400 == 0)

def month_lengths (y : Nat) : List Nat :=
  [31, if is_leap_year y then 29 else 28, 31, 30, 31, 30, 31, 31, 30, 31, 30, 31]

def days_before_month (y m : Nat) : Nat :=
  ((month_lengths y).take (m - 1)).foldl (· + ·) 0

def days_before_year (y : Nat) : Nat :=
  365 * (y - 1) + (y - 1) / 4 + (y - 1) / 400 - (y - 1) / 100

def date_toordinal (y m d : Nat) : Nat :=
  days_before_year y + days_before_month y m + d

/-- Weekday with Monday = 0 .. Sunday = 6, as Python's `date.weekday()`. -/
def date_weekday (y m d : Nat) : Nat :=
  (date_toordinal y m d + 6) % 7

def splitOnChar (sep : Char) : List Char → List (List Char)
  | [] => [[]]
  | c :: rest =>
    match splitOnChar sep rest with
    | [] => if c = sep then [[], []] else [[c]]
    | g :: gs => if c = sep then [] :: g :: gs else (c :: g) :: gs

def digit_val (c : Char) : Option Nat :=
  if 48 ≤ c.toNat ∧ c.toNat ≤ 57 then some (c.toNat - 48) else none

def digitsToNatAux : Nat → List Char → Option Nat
  | acc, [] => some acc
  | acc, c :: rest =>
    match digit_val c with
    | none => none
    | some d => digitsToNatAux (acc * 10 + d) rest

def digitsToNat : List Char → Option Nat
  | [] => none
  | l => digitsToNatAux 0 l

def parse_date_ymd (s : String) : Option (Nat × Nat × Nat) :=
  match splitOnChar (Char.ofNat 45) s.data with
  | [ys, ms, ds] =>
    match digitsToNat ys, digitsToNat ms, digitsToNat ds with
    | some y, some m, some d => some (y, m, d)
    | _, _, _ => none
  | _ => none

/-- `strptime(s, "%Y-%m-%d").weekday()`; `none` models a raised `ValueError`. -/
def weekday_of_datestr (s : String) : Option Nat :=
  match parse_date_ymd s with
  | some (y, m, d) => some (date_weekday y m d)
  | none => none

/-! ## Window summary computations (`generate_html_report`, lines 208-235) -/

def total_charged (data : List DailyRecord) : Int :=
  (data.map (fun e => e.charged)).sum

def total_drained (data : List DailyRecord) : Int :=
  (data.map (fun e => e.drained)).sum

def net_energy_level (data : List DailyRecord) : Int :=
  total_charged data - total_drained data

def average_trend (data : List DailyRecord) : String :=
  if net_energy_level data ≥ 0 then "Net Positive" else "Net Negative"

/-- Line 216: `[entry for entry in data if entry["charged"] < entry["drained"]]`. -/
def negative_days (data : List DailyRecord) : List DailyRecord :=
  data.filter (fun e => decide (e.charged < e.drained))

/-- Line 217: `[entry for entry in data if entry["charged"] >= entry["drained"]]`. -/
def positive_days (data : List DailyRecord) : List DailyRecord :=
  data.filter (fun e => decide (e.charged ≥ e.drained))

/-- Lines 218-220: the second, independently written negative-day filter. -/
def negative_days_array (data : List DailyRecord) : List DailyRecord :=
  data.filter (fun day => decide (day.charged < day.drained))

/-- Lines 221-223: the second, independently written positive-day filter. -/
def positive_days_array (data : List DailyRecord) : List DailyRecord :=
  data.filter (fun day => decide (day.charged ≥ day.drained))

/-- `calendar.day_name` with Monday first (Python's default firstweekday). -/
def calendar_day_name : List String :=
  ["Monday", "Tuesday", "Wednesday", "Thursday", "Friday", "Saturday", "Sunday"]

/-- The list comprehension of lines 226-229: weekday of each negative day,
failing (`none`) as `strptime` would on a malformed date. -/
def weekdays_of : List DailyRecord → Option (List Nat)
  | [] => some []
  | e :: rest =>
    match weekday_of_datestr e.date, weekdays_of rest with
    | some w, some ws => some (w :: ws)
    | _, _ => none

/-- Lines 225-235: worst weekday among negative days, `"N/A"` when none. -/
def max_day_of_week_negative (data : List DailyRecord) : Option String :=
  let neg := negative_days data
  if neg.isEmpty then some "N/A"
  else
    match weekdays_of neg with
    | none => none
    | some days_of_week =>
      let day_of_week_counts := (List.range 7).map (fun d => days_of_week.count d)
      some (calendar_day_name.getD
        (day_of_week_counts.indexOf (day_of_week_counts.foldl Nat.max 0)) "")

/-! ## Narrative post-processing (lines 239-241)

Python's `str.replace` replaces every non-overlapping occurrence, scanning
left to right; `replaceAllFuel` embeds that with a fuel bounded by the string
length (each step consumes at least one character for non-empty patterns; all
patterns used here are non-empty). -/

def replaceAllFuel (pat rep : List Char) : Nat → List Char → List Char
  | _, [] => []
  | 0, s => s
  | fuel + 1, c :: rest =>
    if pat.isPrefixOf (c :: rest) then
      rep ++ replaceAllFuel pat rep fuel (rest.drop (pat.length - 1))
    else
      c :: replaceAllFuel pat rep fuel rest

/-- Python `s.replace(pat, rep)` for non-empty `pat`. -/
def pyReplace (s pat rep : String) : String :=
  ⟨replaceAllFuel pat.data rep.data s.data.length s.data⟩

/-- Lines 239-241 verbatim: `advice.replace("\n", "<br>")`, then
`.replace("** ", "</b>")`, then `.replace("** ", "<b>")` (the third replace
finds nothing left: the second already consumed every occurrence). -/
def postprocess_advice (advice : String) : String :=
  let a1 := pyReplace advice "\n" "<br>"
  let a2 := pyReplace a1 "** " "</b>"
  pyReplace a2 "** " "<b>"

def replaceAlternatingFuel (pat ro rc : List Char) :
    Nat → Bool → List Char → List Char
  | _, _, [] => []
  | 0, _, s => s
  | fuel + 1, opening, c :: rest =>
    if pat.isPrefixOf (c :: rest) then
      (if opening then ro else rc) ++
        replaceAlternatingFuel pat ro rc fuel (!opening) (rest.drop (pat.length - 1))
    else
      c :: replaceAlternatingFuel pat ro rc fuel opening rest

/-- Modelled from the spec: the corrected narrative post-processing the spec
prescribes (newlines to line breaks, then successive occurrences of the fixed
delimiter token mapped alternately to an opening and a closing emphasis
marker), which the source does not implement. -/
def spec_postprocess_advice (advice : String) : String :=
  let a1 := pyReplace advice "\n" "<br>"
  ⟨replaceAlternatingFuel "** ".data "<b>".data "</b>".data a1.data.length true a1.data⟩

/-! ## Narrative request (`generate_energy_balance_analysis`, lines 176-203) -/

def gpt_assistant_prompt : String :=
  "You are an expert sleep, stress and health expert. You spend all your time analyzing sleep and stress data and how it influences the energy level of people. You will analyse the following data to provide an advice on how to improve daily positive energy balances."

/-- The `prompt + context` f-strings of lines 189-191. -/
def build_input_text (data : List DailyRecord) (d0 dN : String) : String :=
  let dates := data.map (fun e => e.date)
  let charged := data.map (fun e => e.charged)
  let drained := data.map (fun e => e.drained)
  let sleep_seconds := data.map (fun e => e.sleep_seconds)
  let avg_stress_level := data.map (fun e => e.avg_stress_level)
  let sleep_feedback := data.map (fun e => e.sleep_feedback)
  let sleep_insight := data.map (fun e => e.sleep_insight)
  "Analyse the energy balance data from " ++ d0 ++ " to " ++ dN ++
    ". Body battery charged and drained, sleep, and stress levels. Also include the sleep insights and sleep feedback so you can identify which factors cause negative energy balance and which factors cause a positive day." ++
    "\n\nDates: " ++ String.intercalate ", " dates ++
    "\nCharged: " ++ String.intercalate ", " (charged.map toString) ++
    "\nDrained: " ++ String.intercalate ", " (drained.map toString) ++
    "\nSleep (seconds): " ++ String.intercalate ", " (sleep_seconds.map toString) ++
    "\nAvg Stress Level: " ++ String.intercalate ", " (avg_stress_level.map toString) ++
    "\nSleep feedback: " ++ String.intercalate ", " sleep_feedback ++
    "\nSleep insight: " ++ String.intercalate ", " sleep_insight ++ "\n\n"

/-- Lines 176-203. `dates[0]` / `dates[-1]` raise `IndexError` on an empty
window, modelled by `none`; otherwise exactly one oracle call is made. -/
def generate_energy_balance_analysis (llm : String → String)
    (data : List DailyRecord) : Option String :=
  match data.map (fun e => e.date) with
  | [] => none
  | d0 :: rest =>
    some (llm (build_input_text data d0 ((d0 :: rest).getLast (List.cons_ne_nil d0 rest))))

/-! ## Report assembly (`generate_html_report`, lines 205-264) -/

/-- The keyword arguments of `template.render(...)`, lines 247-261. -/
structure RenderContext where
  graph_output_filename : String
  stress_graph_output_filename : String
  sleep_graph_output_filename : String
  advice : String
  total_charged : Int
  total_drained : Int
  net_energy_level : Int
  average_trend : String
  negative_days : Nat
  positive_days : Nat
  negative_days_array : List DailyRecord
  positive_days_array : List DailyRecord
  max_day_of_week_negative : String
deriving DecidableEq

/-- `generate_html_report` (lines 205-264), up to the rendering context handed
to the template renderer (file writing and chart rendering are external
effects). `none` models a propagated exception. -/
def generate_html_report (llm : String → String) (data : List DailyRecord) :
    Option RenderContext :=
  match generate_energy_balance_analysis llm data with
  | none => none
  | some advice =>
    match max_day_of_week_negative data with
    | none => none
    | some wd =>
      some {
        graph_output_filename := "charged_vs_drained_plot.png"
        stress_graph_output_filename := "stress_level.png"
        sleep_graph_output_filename := "sleep_statistics.png"
        advice := postprocess_advice advice
        total_charged := total_charged data
        total_drained := total_drained data
        net_energy_level := net_energy_level data
        average_trend := average_trend data
        negative_days := (negative_days data).length
        positive_days := (positive_days data).length
        negative_days_array := negative_days_array data
        positive_days_array := positive_days_array data
        max_day_of_week_negative := wd }

/-! ## Per-day aggregation (`__main__` loop, lines 334-368, and
`extract_values`, lines 52-56)

Each provider response field is `Option`-valued: `none` models the key being
absent from the dict, so that a field access raises `KeyError`. -/

structure RawBatteryEntry where
  date : Option String
  charged : Option Int
  drained : Option Int
deriving DecidableEq

structure RawSleepDTO where
  sleepTimeSeconds : Option Int
  deepSleepSeconds : Option Int
  lightSleepSeconds : Option Int
  remSleepSeconds : Option Int
  awakeSleepSeconds : Option Int
  sleepScoreFeedback : Option String
  sleepScoreInsight : Option String
deriving DecidableEq

structure RawSleepData where
  dailySleepDTO : Option RawSleepDTO
deriving DecidableEq

structure RawStressData where
  avgStressLevel : Option Int
  maxStressLevel : Option Int
deriving DecidableEq

/-- The body of the aggregation loop (lines 334-368) for one date: field
accesses on the battery entry (as extracted by `extract_values`), the nested
`dailySleepDTO`, and the stress response; any missing field propagates as
`none`, and on success the `new_entry` record is built with exactly the
fetched values (feedback/insight via the explanation lookups). -/
def aggregate_entry (entry : RawBatteryEntry) (sleep_data : RawSleepData)
    (stress_data : RawStressData) : Option DailyRecord :=
  match entry.date, entry.charged, entry.drained with
  | some date, some charged, some drained =>
    match sleep_data.dailySleepDTO with
    | some dto =>
      match dto.sleepTimeSeconds, dto.deepSleepSeconds, dto.lightSleepSeconds,
            dto.remSleepSeconds, dto.awakeSleepSeconds,
            dto.sleepScoreFeedback, dto.sleepScoreInsight with
      | some ss, some ds, some ls, some rs, some aw, some fb, some ins =>
        match stress_data.avgStressLevel, stress_data.maxStressLevel with
        | some avg, some mx =>
          some {
            date := date
            charged := charged
            drained := drained
            sleep_seconds := ss
            deep_sleep_seconds := ds
            light_sleep_seconds := ls
            rem_sleep_seconds := rs
            awake_sleep_seconds := aw
            sleep_feedback := get_sleep_feedback_explanation fb
            sleep_insight := get_sleep_insight_explanation ins
            avg_stress_level := avg
            max_stress_level := mx }
        | _, _ => none
      | _, _, _, _, _, _, _ => none
    | none => none
  | _, _, _ => none

/-- All required provider fields are present. -/
def has_all_fields (entry : RawBatteryEntry) (sleep_data : RawSleepData)
    (stress_data : RawStressData) : Bool :=
  entry.date.isSome && entry.charged.isSome && entry.drained.isSome &&
  (match sleep_data.dailySleepDTO with
   | none => false
   | some dto =>
     dto.sleepTimeSeconds.isSome && dto.deepSleepSeconds.isSome &&
     dto.lightSleepSeconds.isSome && dto.remSleepSeconds.isSome &&
     dto.awakeSleepSeconds.isSome && dto.sleepScoreFeedback.isSome &&
     dto.sleepScoreInsight.isSome) &&
  stress_data.avgStressLevel.isSome && stress_data.maxStressLevel.isSome

/-! ## Window summary record (spec section 3, computed by lines 208-235) -/

/-- The derived summary values of one report run, bundled. -/
structure WindowSummary where
  totalCharged : Int
  totalDrained : Int
  netEnergy : Int
  trendLabel : String
  negativeDays : List DailyRecord
  positiveDays : List DailyRecord
  worstWeekday : Option String
deriving DecidableEq

def window_summary (data : List DailyRecord) : WindowSummary :=
  { totalCharged := total_charged data
    totalDrained := total_drained data
    netEnergy := net_energy_level data
    trendLabel := average_trend data
    negativeDays := negative_days data
    positiveDays := positive_days data
    worstWeekday := max_day_of_week_negative data }

/-! ## Sample data (the spec's end-to-end scenario, section 8, with the
remaining fields filled in) -/

def sample_day_1 : DailyRecord :=
  { date := "2024-01-01", charged := 50, drained := 80
    sleep_seconds := 28800, deep_sleep_seconds := 7200
    light_sleep_seconds := 14400, rem_sleep_seconds := 5400
    awake_sleep_seconds := 1800
    sleep_feedback := "POSITIVE_DEEP", sleep_insight := "NONE"
    avg_stress_level := 30, max_stress_level := 70 }

def sample_day_2 : DailyRecord :=
  { date := "2024-01-02", charged := 90, drained := 40
    sleep_seconds := 30000, deep_sleep_seconds := 8000
    light_sleep_seconds := 15000, rem_sleep_seconds := 6000
    awake_sleep_seconds := 1000
    sleep_feedback := "POSITIVE_LONG_AND_CALM", sleep_insight := "POSITIVE_EXERCISE"
    avg_stress_level := 25, max_stress_level := 60 }

/-- A third day, negative on a Wednesday (2024-01-03). -/
def sample_day_3 : DailyRecord :=
  { date := "2024-01-03", charged := 10, drained := 20
    sleep_seconds := 20000, deep_sleep_seconds := 5000
    light_sleep_seconds := 10000, rem_sleep_seconds := 4000
    awake_sleep_seconds := 1000
    sleep_feedback := "NEGATIVE_SHORT_AND_POOR_QUALITY", sleep_insight := "NEGATIVE_STRESSFUL_DAY"
    avg_stress_level := 60, max_stress_level := 90 }

def sample_window : List DailyRecord := [sample_day_1, sample_day_2]

/-- Window with one negative Monday and one negative Wednesday (equal counts). -/
def tie_window : List DailyRecord := [sample_day_1, sample_day_3]

def sample_llm : String → String := fun _ => "Keep your energy balanced."

/-- The rendering context produced for `sample_window` under `sample_llm`. -/
def sample_render_context : RenderContext :=
  { graph_output_filename := "charged_vs_drained_plot.png"
    stress_graph_output_filename := "stress_level.png"
    sleep_graph_output_filename := "sleep_statistics.png"
    advice := "Keep your energy balanced."
    total_charged := 140
    total_drained := 120
    net_energy_level := 20
    average_trend := "Net Positive"
    negative_days := 1
    positive_days := 1
    negative_days_array := [sample_day_1]
    positive_days_array := [sample_day_2]
    max_day_of_week_negative := "Monday" }

def sample_battery_entry : RawBatteryEntry :=
  { date := some "2024-01-01", charged := some 50, drained := some 80 }

def sample_sleep_dto : RawSleepDTO :=
  { sleepTimeSeconds := some 28800, deepSleepSeconds := some 7200
    lightSleepSeconds := some 14400, remSleepSeconds := some 5400
    awakeSleepSeconds := some 1800
    sleepScoreFeedback := some "POSITIVE_DEEP", sleepScoreInsight := some "NONE" }

def sample_sleep_data : RawSleepData := { dailySleepDTO := some sample_sleep_dto }

def sample_stress_data : RawStressData :=
  { avgStressLevel := some 30, maxStressLevel := some 70 }

/-- The record the aggregation loop builds from the sample provider data. -/
def sample_aggregated : DailyRecord :=
  { date := "2024-01-01", charged := 50, drained := 80
    sleep_seconds := 28800, deep_sleep_seconds := 7200
    light_sleep_seconds := 14400, rem_sleep_seconds := 5400
    awake_sleep_seconds := 1800
    sleep_feedback := get_sleep_feedback_explanation "POSITIVE_DEEP"
    sleep_insight := get_sleep_insight_explanation "NONE"
    avg_stress_level := 30, max_stress_level := 70 }

/-! ## Helper lemmas -/

lemma lookup_eq_none_of_not_mem (l : List (String × String)) (s : String)
    (h : s ∉ l.map Prod.fst) : l.lookup s = none := by
  induction l with
  | nil => rfl
  | cons p rest ih =>
    obtain ⟨k, v⟩ := p
    simp only [List.map_cons, List.mem_cons, not_or] at h
    have hne : (s == k) = false := beq_eq_false_iff_ne.mpr h.1
    simp [List.lookup, hne, ih h.2]

lemma foldl_max_mem (l : List Nat) : ∀ a : Nat, l.foldl Nat.max a ∈ a :: l := by
  induction l with
  | nil => intro a; simp
  | cons b t ih =>
    intro a
    simp only [List.foldl_cons]
    rcases List.mem_cons.1 (ih (Nat.max a b)) with h | h
    · rw [h]
      have hab : a.max b = a ∨ a.max b = b := max_choice a b
      rcases hab with hm | hm <;> rw [hm] <;> simp
    · exact List.mem_cons_of_mem _ (List.mem_cons_of_mem _ h)

lemma le_foldl_max_init (l : List Nat) : ∀ a : Nat, a ≤ l.foldl Nat.max a := by
  induction l with
  | nil => intro a; simp
  | cons b t ih =>
    intro a
    simp only [List.foldl_cons]
    exact le_trans (Nat.le_max_left a b) (ih _)

lemma le_foldl_max_of_mem (l : List Nat) :
    ∀ a x : Nat, x ∈ l → x ≤ l.foldl Nat.max a := by
  induction l with
  | nil => intro a x h; simp at h
  | cons b t ih =>
    intro a x h
    simp only [List.foldl_cons]
    rcases List.mem_cons.1 h with rfl | h2
    · exact le_trans (Nat.le_max_right a x) (le_foldl_max_init t _)
    · exact ih _ _ h2

lemma foldl_max_mem_of_ne_nil (l : List Nat) (hne : l ≠ []) :
    l.foldl Nat.max 0 ∈ l := by
  rcases List.mem_cons.1 (foldl_max_mem l 0) with h0 | hmem
  · rcases l with - | ⟨b, t⟩
    · exact absurd rfl hne
    · have hle : b ≤ (b :: t).foldl Nat.max 0 :=
        le_foldl_max_of_mem _ 0 b (List.mem_cons_self b t)
      have hb : b = 0 := by omega
      rw [h0, ← hb]
      exact List.mem_cons_self b t
  · exact hmem

lemma getElem_ne_of_lt_indexOf (l : List Nat) :
    ∀ (a j : Nat) (hj : j < l.length), j < l.indexOf a → l.get ⟨j, hj⟩ ≠ a := by
  induction l with
  | nil => intro a j hj; simp at hj
  | cons b t ih =>
    intro a j hj hlt
    by_cases hba : b = a
    · subst hba
      rw [List.indexOf_cons_self] at hlt
      omega
    · cases j with
      | zero => simpa using hba
      | succ j2 =>
        rw [List.indexOf_cons_ne _ hba] at hlt
        simpa using ih a j2 (by simpa using hj) (Nat.lt_of_succ_lt_succ hlt)

lemma generate_html_report_eq_some (llm : String → String)
    (data : List DailyRecord) (ctx : RenderContext)
    (h : generate_html_report llm data = some ctx) :
    ∃ advice wd,
      generate_energy_balance_analysis llm data = some advice ∧
      max_day_of_week_negative data = some wd ∧
      ctx = { graph_output_filename := "charged_vs_drained_plot.png"
              stress_graph_output_filename := "stress_level.png"
              sleep_graph_output_filename := "sleep_statistics.png"
              advice := postprocess_advice advice
              total_charged := total_charged data
              total_drained := total_drained data
              net_energy_level := net_energy_level data
              average_trend := average_trend data
              negative_days := (negative_days data).length
              positive_days := (positive_days data).length
              negative_days_array := negative_days_array data
              positive_days_array := positive_days_array data
              max_day_of_week_negative := wd } := by
  unfold generate_html_report at h
  cases h1 : generate_energy_balance_analysis llm data with
  | none => rw [h1] at h; exact absurd h (by simp)
  | some advice =>
    rw [h1] at h
    cases h2 : max_day_of_week_negative data with
    | none => rw [h2] at h; exact absurd h (by simp)
    | some wd =>
      rw [h2] at h
      exact ⟨advice, wd, rfl, rfl, (Option.some.inj h).symm⟩

lemma negative_positive_length (data : List DailyRecord) :
    (negative_days data).length + (positive_days data).length = data.length := by
  induction data with
  | nil => rfl
  | cons e rest ih =>
    simp only [negative_days, positive_days, List.filter_cons] at ih ⊢
    by_cases h : e.charged < e.drained
    · simp [h, not_le.2 h] at ih ⊢
      omega
    · simp [h, not_lt.1 h] at ih ⊢
      omega

/-! ## Claim theorems -/

set_option maxRecDepth 8000

/-- C1: the narrative post-processing of lines 239-241 does replace every raw
newline with a line break, but it does not implement the alternating
open/close emphasis pairing: at an input with an even number (two) of
occurrences of the delimiter token, every occurrence is replaced by the
closing marker (the third replace is dead code), diverging from the
spec-prescribed alternating pairing. -/
theorem c1_emphasis_pairing_bug :
    postprocess_advice "** bold ** rest\n" = "</b>bold </b>rest<br>" ∧
    spec_postprocess_advice "** bold ** rest\n" = "<b>bold </b>rest<br>" ∧
    postprocess_advice "** bold ** rest\n" ≠
      spec_postprocess_advice "** bold ** rest\n" :=
  ⟨by decide, by decide, by decide⟩

/-- C2: summarizing an empty window fails: the narrative builder indexes
`dates[0]`, so both it and the whole report generation propagate the error
(`none`) on the empty record sequence, for every narrative oracle. -/
theorem c2_empty_window_fails (llm : String → String) :
    generate_html_report llm [] = none ∧
    generate_energy_balance_analysis llm [] = none :=
  ⟨rfl, rfl⟩

/-- C4: the negative/positive day classification is a partition: a record is
negative iff `charged < drained` (strict), positive iff `charged >= drained`,
every record of the window lands in exactly one of the two lists, the lengths
add up to the window length, and both lists are sublists of the input (so
chronological order is preserved). -/
theorem c4_partition (data : List DailyRecord) :
    (negative_days data).length + (positive_days data).length = data.length ∧
    List.Sublist (negative_days data) data ∧
    List.Sublist (positive_days data) data ∧
    (∀ e, e ∈ data → (e ∈ negative_days data ↔ e.charged < e.drained)) ∧
    (∀ e, e ∈ data → (e ∈ positive_days data ↔ e.charged ≥ e.drained)) ∧
    (∀ e, e ∈ data →
      ((e ∈ negative_days data ∧ e ∉ positive_days data) ∨
       (e ∈ positive_days data ∧ e ∉ negative_days data))) := by
  refine ⟨negative_positive_length data, List.filter_sublist data,
    List.filter_sublist data, ?_, ?_, ?_⟩
  · intro e he
    simp [negative_days, List.mem_filter, he]
  · intro e he
    simp [positive_days, List.mem_filter, he]
  · intro e he
    by_cases h : e.charged < e.drained
    · exact Or.inl ⟨by simp [negative_days, List.mem_filter, he, h],
        by simp [positive_days, List.mem_filter, he, not_le.2 h]⟩
    · exact Or.inr ⟨by simp [positive_days, List.mem_filter, he, not_lt.1 h],
        by simp [negative_days, List.mem_filter, he, h]⟩

/-- C4 witness: the partition facts instantiated on the sample window and its
first record. -/
theorem c4_partition_witness :
    (negative_days sample_window).length + (positive_days sample_window).length
        = sample_window.length ∧
    ((sample_day_1 ∈ negative_days sample_window ∧
        sample_day_1 ∉ positive_days sample_window) ∨
     (sample_day_1 ∈ positive_days sample_window ∧
        sample_day_1 ∉ negative_days sample_window)) := by
  have h := c4_partition sample_window
  exact ⟨h.1, h.2.2.2.2.2 sample_day_1 (by decide)⟩

/-- C5: net energy is exactly total charged minus total drained, and the trend
label is "Net Positive" iff the net is at least zero (zero inclusive), else
"Net Negative". -/
theorem c5_net_energy_trend (data : List DailyRecord) :
    net_energy_level data = total_charged data - total_drained data ∧
    (average_trend data = "Net Positive" ↔ 0 ≤ net_energy_level data) ∧
    (average_trend data = "Net Negative" ↔ net_energy_level data < 0) := by
  refine ⟨rfl, ?_, ?_⟩ <;>
    · unfold average_trend
      split <;> simp_all

/-- C8: the summary computation is pure and idempotent: equal input windows
give equal `WindowSummary` values; there is no hidden state in the embedding
of lines 208-235. -/
theorem c8_summary_idempotent (data1 data2 : List DailyRecord)
    (h : data1 = data2) : window_summary data1 = window_summary data2 := by
  rw [h]

/-- C8 witness: re-summarizing the sample window gives the same summary. -/
theorem c8_summary_idempotent_witness :
    window_summary sample_window = window_summary sample_window :=
  c8_summary_idempotent sample_window sample_window rfl

/-- C6: the two lookup functions are total with identity fallback: there are
exactly 8 feedback codes and 6 insight codes, each fixed code maps to its
canonical explanation from the source's dict literal, and every string outside
the fixed code sets is returned unchanged. -/
theorem c6_lookup_totality :
    feedback_codes.length = 8 ∧
    insight_codes.length = 6 ∧
    (∀ p ∈ feedback_mapping, get_sleep_feedback_explanation p.1 = p.2) ∧
    (∀ p ∈ insight_mapping, get_sleep_insight_explanation p.1 = p.2) ∧
    (∀ s : String, s ∉ feedback_codes → get_sleep_feedback_explanation s = s) ∧
    (∀ s : String, s ∉ insight_codes → get_sleep_insight_explanation s = s) := by
  refine ⟨rfl, rfl, by decide, by decide, ?_, ?_⟩
  · intro s hs
    unfold get_sleep_feedback_explanation
    rw [lookup_eq_none_of_not_mem _ _ hs]
  · intro s hs
    unfold get_sleep_insight_explanation
    rw [lookup_eq_none_of_not_mem _ _ hs]

/-- C6 witness: the unknown-code scenario of the spec. -/
theorem c6_lookup_totality_witness :
    get_sleep_feedback_explanation "SOME_NEW_CODE" = "SOME_NEW_CODE" :=
  c6_lookup_totality.2.2.2.2.1 "SOME_NEW_CODE" (by decide)

/-- C9: whenever report generation succeeds, the rendering context handed to
the template renderer carries the totals, net energy, trend label, the counts
and the full negative/positive day lists, the worst weekday, the three chart
artifact references, and the post-processed narrative text. -/
theorem c9_render_context (llm : String → String) (data : List DailyRecord)
    (ctx : RenderContext) (h : generate_html_report llm data = some ctx) :
    ctx.total_charged = total_charged data ∧
    ctx.total_drained = total_drained data ∧
    ctx.net_energy_level = net_energy_level data ∧
    ctx.average_trend = average_trend data ∧
    ctx.negative_days = (negative_days data).length ∧
    ctx.positive_days = (positive_days data).length ∧
    ctx.negative_days_array = negative_days data ∧
    ctx.positive_days_array = positive_days data ∧
    max_day_of_week_negative data = some ctx.max_day_of_week_negative ∧
    ctx.graph_output_filename = "charged_vs_drained_plot.png" ∧
    ctx.stress_graph_output_filename = "stress_level.png" ∧
    ctx.sleep_graph_output_filename = "sleep_statistics.png" ∧
    ∃ raw, generate_energy_balance_analysis llm data = some raw ∧
      ctx.advice = postprocess_advice raw := by
  obtain ⟨advice, wd, h1, h2, rfl⟩ := generate_html_report_eq_some llm data ctx h
  exact ⟨rfl, rfl, rfl, rfl, rfl, rfl, rfl, rfl, h2, rfl, rfl, rfl,
    advice, h1, rfl⟩

/-- C9 witness: the context computed for the sample window contains the sample
totals and the worst weekday. -/
theorem c9_render_context_witness :
    sample_render_context.total_charged = total_charged sample_window ∧
    max_day_of_week_negative sample_window
      = some sample_render_context.max_day_of_week_negative := by
  have h := c9_render_context sample_llm sample_window sample_render_context
    (by decide)
  exact ⟨h.1, h.2.2.2.2.2.2.2.2.1⟩

/-- C10: the two independently written negative-day filters (lines 216 and
218-220) are extensionally equal, likewise the two positive-day filters
(lines 217 and 221-223), and in every successful rendering context the
negative/positive counts equal the lengths of the rendered record lists. -/
theorem c10_duplicate_filters_agree (data : List DailyRecord) :
    negative_days_array data = negative_days data ∧
    positive_days_array data = positive_days data ∧
    ∀ (llm : String → String) (ctx : RenderContext),
      generate_html_report llm data = some ctx →
      ctx.negative_days = ctx.negative_days_array.length ∧
      ctx.positive_days = ctx.positive_days_array.length := by
  refine ⟨rfl, rfl, ?_⟩
  intro llm ctx h
  obtain ⟨advice, wd, h1, h2, rfl⟩ := generate_html_report_eq_some llm data ctx h
  exact ⟨rfl, rfl⟩

/-- C10 witness: the counts and list lengths agree on the sample context. -/
theorem c10_duplicate_filters_agree_witness :
    sample_render_context.negative_days
      = sample_render_context.negative_days_array.length ∧
    sample_render_context.positive_days
      = sample_render_context.positive_days_array.length :=
  (c10_duplicate_filters_agree sample_window).2.2 sample_llm
    sample_render_context (by decide)

lemma worst_weekday_select (ws : List Nat) :
    ∃ i, i < 7 ∧
      ((List.range 7).map (fun d => ws.count d)).indexOf
        (((List.range 7).map (fun d => ws.count d)).foldl Nat.max 0) = i ∧
      (∀ j, j < 7 → ws.count j ≤ ws.count i) ∧
      (∀ j, j < i → ws.count j < ws.count i) := by
  set counts : List Nat := (List.range 7).map (fun d => ws.count d) with hc
  have hclen : counts.length = 7 := by rw [hc]; simp
  have hcne : counts ≠ [] := by
    intro hh
    rw [hh] at hclen
    simp at hclen
  have hmem := foldl_max_mem_of_ne_nil counts hcne
  have hilt : counts.indexOf (counts.foldl Nat.max 0) < counts.length :=
    List.indexOf_lt_length.2 hmem
  have hcval : ∀ (j : Nat) (hj : j < counts.length), getElem counts j hj = ws.count j := by
    intro j hj
    simp only [hc, List.getElem_map]
    congr 1
    apply List.getElem_range
  have hget_i : getElem counts (counts.indexOf (counts.foldl Nat.max 0)) hilt
      = counts.foldl Nat.max 0 := List.getElem_indexOf hilt
  have hws_i : ws.count (counts.indexOf (counts.foldl Nat.max 0))
      = counts.foldl Nat.max 0 := by
    rw [← hcval _ hilt]
    exact hget_i
  refine ⟨counts.indexOf (counts.foldl Nat.max 0), by omega, rfl, ?_, ?_⟩
  · intro j hj
    have h1 : getElem counts j (by omega) ≤ counts.foldl Nat.max 0 :=
      le_foldl_max_of_mem counts 0 _ (List.getElem_mem (by omega))
    rw [hcval j (by omega)] at h1
    omega
  · intro j hji
    have hj7 : j < counts.length := by omega
    have hne2 : counts.get ⟨j, hj7⟩ ≠ counts.foldl Nat.max 0 :=
      getElem_ne_of_lt_indexOf counts _ j hj7 hji
    have h1 : getElem counts j hj7 ≤ counts.foldl Nat.max 0 :=
      le_foldl_max_of_mem counts 0 _ (List.getElem_mem hj7)
    rw [List.get_eq_getElem] at hne2
    rw [hcval j hj7] at hne2 h1
    omega

/-- C3: for a window whose negative days all carry parseable dates
(`weekdays_of` succeeds with list `ws`): with no negative days the worst
weekday is the sentinel "N/A"; with at least one negative day the result is
the name of a weekday index `i < 7` (Monday = 0 .. Sunday = 6) whose count
among the negative days is maximal, and every strictly smaller index has a
strictly smaller count (lowest index wins ties). -/
theorem c3_worst_weekday (data : List DailyRecord) (ws : List Nat)
    (h : weekdays_of (negative_days data) = some ws) :
    (negative_days data = [] → max_day_of_week_negative data = some "N/A") ∧
    (negative_days data ≠ [] →
      ∃ i, i < 7 ∧
        max_day_of_week_negative data = some (calendar_day_name.getD i "") ∧
        (∀ j, j < 7 → ws.count j ≤ ws.count i) ∧
        (∀ j, j < i → ws.count j < ws.count i)) := by
  constructor
  · intro hnil
    simp [max_day_of_week_negative, hnil]
  · intro hne
    obtain ⟨i, hi7, hieq, hmax, hmin⟩ := worst_weekday_select ws
    refine ⟨i, hi7, ?_, hmax, hmin⟩
    have hemp : (negative_days data).isEmpty = false := by
      cases hcase : (negative_days data).isEmpty
      · rfl
      · exact absurd (List.isEmpty_iff.1 hcase) hne
    simp only [max_day_of_week_negative, hemp, Bool.false_eq_true, if_false, h]
    rw [hieq]

/-- C3 witness: a window with one negative Monday (2024-01-01) and one
negative Wednesday (2024-01-03), equal counts; the selected index satisfies
the tie-break facts, and the computed worst weekday is "Monday". -/
theorem c3_worst_weekday_witness :
    negative_days tie_window ≠ [] ∧
    max_day_of_week_negative tie_window = some "Monday" ∧
    ∃ i, i < 7 ∧
      max_day_of_week_negative tie_window = some (calendar_day_name.getD i "") ∧
      (∀ j, j < 7 → ([0, 2] : List Nat).count j ≤ ([0, 2] : List Nat).count i) ∧
      (∀ j, j < i → ([0, 2] : List Nat).count j < ([0, 2] : List Nat).count i) :=
  ⟨by decide, by decide,
    (c3_worst_weekday tie_window [0, 2] (by decide)).2 (by decide)⟩

/-- C7: per-day aggregation treats a missing required field as a hard error:
building the record succeeds exactly when every required provider field is
present (battery date/charged/drained, the nested sleep DTO with its five
duration fields and two categorical codes, and stress avg/max), and on
success the record carries exactly the fetched values — no default is ever
substituted (the categorical codes pass through the explanation lookups). -/
theorem c7_missing_field_fatal :
    (∀ (entry : RawBatteryEntry) (sleep_data : RawSleepData)
       (stress_data : RawStressData),
       (aggregate_entry entry sleep_data stress_data).isSome
         = has_all_fields entry sleep_data stress_data) ∧
    (∀ (entry : RawBatteryEntry) (sleep_data : RawSleepData)
       (stress_data : RawStressData) (r : DailyRecord),
       aggregate_entry entry sleep_data stress_data = some r →
       entry.date = some r.date ∧ entry.charged = some r.charged ∧
       entry.drained = some r.drained ∧
       ∃ dto, sleep_data.dailySleepDTO = some dto ∧
         dto.sleepTimeSeconds = some r.sleep_seconds ∧
         dto.deepSleepSeconds = some r.deep_sleep_seconds ∧
         dto.lightSleepSeconds = some r.light_sleep_seconds ∧
         dto.remSleepSeconds = some r.rem_sleep_seconds ∧
         dto.awakeSleepSeconds = some r.awake_sleep_seconds ∧
         (∃ fb, dto.sleepScoreFeedback = some fb ∧
            r.sleep_feedback = get_sleep_feedback_explanation fb) ∧
         (∃ ins, dto.sleepScoreInsight = some ins ∧
            r.sleep_insight = get_sleep_insight_explanation ins) ∧
         stress_data.avgStressLevel = some r.avg_stress_level ∧
         stress_data.maxStressLevel = some r.max_stress_level) := by
  constructor
  · intro e s st
    obtain ⟨od, oc, odr⟩ := e
    obtain ⟨odto⟩ := s
    obtain ⟨oav, omx⟩ := st
    rcases odto with - | ⟨o1, o2, o3, o4, o5, o6, o7⟩ <;>
      cases od <;> cases oc <;> cases odr <;> cases oav <;> cases omx <;>
      first
        | rfl
        | (cases o1 <;> cases o2 <;> cases o3 <;> cases o4 <;> cases o5 <;>
           cases o6 <;> cases o7 <;> rfl)
  · intro e s st r hagg
    obtain ⟨od, oc, odr⟩ := e
    obtain ⟨odto⟩ := s
    obtain ⟨oav, omx⟩ := st
    rcases od with - | date
    · simp [aggregate_entry] at hagg
    rcases oc with - | charged
    · simp [aggregate_entry] at hagg
    rcases odr with - | drained
    · simp [aggregate_entry] at hagg
    rcases odto with - | ⟨o1, o2, o3, o4, o5, o6, o7⟩
    · simp [aggregate_entry] at hagg
    rcases o1 with - | ss
    · simp [aggregate_entry] at hagg
    rcases o2 with - | ds
    · simp [aggregate_entry] at hagg
    rcases o3 with - | ls
    · simp [aggregate_entry] at hagg
    rcases o4 with - | rs
    · simp [aggregate_entry] at hagg
    rcases o5 with - | aw
    · simp [aggregate_entry] at hagg
    rcases o6 with - | fb
    · simp [aggregate_entry] at hagg
    rcases o7 with - | ins
    · simp [aggregate_entry] at hagg
    rcases oav with - | avg
    · simp [aggregate_entry] at hagg
    rcases omx with - | mx
    · simp [aggregate_entry] at hagg
    obtain rfl := Option.some.inj hagg
    exact ⟨rfl, rfl, rfl, ⟨some ss, some ds, some ls, some rs, some aw,
      some fb, some ins⟩, rfl, rfl, rfl, rfl, rfl, rfl, ⟨fb, rfl, rfl⟩,
      ⟨ins, rfl, rfl⟩, rfl, rfl⟩

/-- C7 witness: the sample provider responses have all fields present; the
aggregated record carries exactly the sample values. -/
theorem c7_missing_field_fatal_witness :
    sample_battery_entry.date = some sample_aggregated.date ∧
    sample_battery_entry.charged = some sample_aggregated.charged ∧
    sample_battery_entry.drained = some sample_aggregated.drained := by
  have h := c7_missing_field_fatal.2 sample_battery_entry sample_sleep_data
    sample_stress_data sample_aggregated rfl
  exact ⟨h.1, h.2.1, h.2.2.1⟩
